import Mathlib

/-!
Verification model of the obsidian-daily-heatmap word-count tracker
(`src/wordCounter.ts`).  JavaScript objects used as string-keyed maps are
modelled as association lists (first matching key wins, assignment updates
in place or appends, as JS property order does).  JS numbers holding word
counts are modelled as `Int`.  The regex pipeline of `countWords` is
modelled by explicit leftmost-match scanning functions that mirror the
semantics of the global, non-greedy regex replacements in the source.
-/

namespace DailyHeatmap

/-- JS object used as a `string -> number` map, in property order. -/
abbrev Obj := List (String × Int)

/-- Property lookup `m[k]`: `some v` when present, `none` for `undefined`. -/
def objGet? : Obj → String → Option Int
  | [], _ => none
  | (k', v) :: rest, k => if k' = k then some v else objGet? rest k

/-- `m[k] || d` for a numeric default (JS `|| 0` on a number equals `getD 0`). -/
def objGetD (m : Obj) (k : String) (d : Int) : Int :=
  (objGet? m k).getD d

/-- Property assignment `m[k] = v`: update in place, else append. -/
def objSet : Obj → String → Int → Obj
  | [], k, v => [(k, v)]
  | (k', v') :: rest, k, v =>
    if k' = k then (k, v) :: rest else (k', v') :: objSet rest k v

/-- Property deletion `delete m[k]`. -/
def objDel (m : Obj) (k : String) : Obj :=
  m.filter (fun e => e.1 ≠ k)

/-! ## The countWords pipeline (wordCounter.ts lines 137-152) -/

/-- The backtick character, U+0060. -/
def isBacktickChar (c : Char) : Bool := c.toNat = 0x60

/-- Prepend a character to the first component of a split result. -/
def consFst (c : Char) : Option (List Char × List Char) → Option (List Char × List Char)
  | none => none
  | some (pre, post) => some (c :: pre, post)

/-- Leftmost occurrence of a triple backtick fence: returns the characters
before the fence and the characters after it. -/
def findTriple : List Char → Option (List Char × List Char)
  | [] => none
  | c :: cs =>
    match cs with
    | c2 :: c3 :: rest =>
      if isBacktickChar c && isBacktickChar c2 && isBacktickChar c3 then some ([], rest)
      else consFst c (findTriple cs)
    | _ => consFst c (findTriple cs)

/-- Leftmost character satisfying `p`: characters before it, characters after it. -/
def splitAtChar (p : Char → Bool) : List Char → Option (List Char × List Char)
  | [] => none
  | c :: cs => if p c then some ([], cs) else consFst c (splitAtChar p cs)

/-- One fence-removal sweep with explicit fuel; each match consumes at least
six characters, so fuel equal to the text length always suffices
(invariant: the remaining suffix is never longer than the fuel). -/
def removeFencedGo : Nat → List Char → List Char
  | 0, cs => cs
  | fuel + 1, cs =>
    match findTriple cs with
    | none => cs
    | some (pre, rest) =>
      match findTriple rest with
      | none => cs
      | some (mid, after) =>
        have _ := mid
        pre ++ removeFencedGo fuel after

/-- `.replace(/BTBTBT[\s\S]*?BTBTBT/g, '')` where BT is a backtick:
remove fenced code blocks, leftmost-first, non-greedy. -/
def removeFenced (cs : List Char) : List Char :=
  removeFencedGo cs.length cs

/-- Inline-code removal sweep with fuel; each match consumes at least two
characters. -/
def removeInlineGo : Nat → List Char → List Char
  | 0, cs => cs
  | fuel + 1, cs =>
    match splitAtChar isBacktickChar cs with
    | none => cs
    | some (pre, rest) =>
      match splitAtChar isBacktickChar rest with
      | none => cs
      | some (mid, after) =>
        have _ := mid
        pre ++ removeInlineGo fuel after

/-- `.replace(/BT[^BT]*BT/g, '')` where BT is a backtick: remove inline
code spans. -/
def removeInline (cs : List Char) : List Char :=
  removeInlineGo cs.length cs

/-- Attempt to match `([^\]]*)\]\([^)]*\)` (the part of the markdown link
regex after the opening bracket): returns the label and the characters
after the closing parenthesis. -/
def matchLink (cs : List Char) : Option (List Char × List Char) :=
  match splitAtChar (fun c => c = ']') cs with
  | none => none
  | some (label, rest1) =>
    match rest1 with
    | '(' :: rest2 =>
      match splitAtChar (fun c => c = ')') rest2 with
      | none => none
      | some (target, rest3) =>
        have _ := target
        some (label, rest3)
    | _ => none

/-- Link-replacement sweep with fuel; every step shortens the suffix. -/
def replaceLinksGo : Nat → List Char → List Char
  | 0, cs => cs
  | fuel + 1, cs =>
    match cs with
    | [] => []
    | c :: rest =>
      if c = '[' then
        match matchLink rest with
        | some (label, after) => label ++ replaceLinksGo fuel after
        | none => c :: replaceLinksGo fuel rest
      else c :: replaceLinksGo fuel rest

/-- `.replace(/\[([^\]]*)\]\(([^)]*)\)/g, '$1')`: markdown links keep the
label, drop the target. -/
def replaceLinks (cs : List Char) : List Char :=
  replaceLinksGo cs.length cs

/-- Membership in the stripped punctuation class `[-#*_~BT>]` (BT = backtick). -/
def isStrippedPunct (c : Char) : Bool :=
  c = '-' || c = '#' || c = '*' || c = '_' || c = '~' || isBacktickChar c || c = '>'

/-- `.replace(/[-#*_~BT>]/g, '')`. -/
def stripPunct (cs : List Char) : List Char :=
  cs.filter (fun c => !isStrippedPunct c)

/-- The JS `\s` / `trim` whitespace class. -/
def isJsSpace (c : Char) : Bool :=
  let n := c.toNat
  n = 0x20 || n = 0x09 || n = 0x0a || n = 0x0d || n = 0x0b || n = 0x0c ||
  n = 0xa0 || n = 0x1680 || (0x2000 ≤ n && n ≤ 0x200a) || n = 0x2028 ||
  n = 0x2029 || n = 0x202f || n = 0x205f || n = 0x3000 || n = 0xfeff

/-- `.trim()`: drop leading and trailing whitespace. -/
def jsTrim (cs : List Char) : List Char :=
  ((cs.dropWhile isJsSpace).reverse.dropWhile isJsSpace).reverse

/-- Membership in the CJK Unified Ideographs range `[一-龥]`. -/
def isCJK (c : Char) : Bool :=
  0x4e00 ≤ c.toNat && c.toNat ≤ 0x9fa5

/-- The `cleanText` value of `countWords`: the four regex replacements
followed by `trim`. -/
def cleanChars (cs : List Char) : List Char :=
  jsTrim (stripPunct (replaceLinks (removeInline (removeFenced cs))))

/-- Number of non-empty tokens produced by `.split(/\s+/)` (i.e. maximal
runs of non-whitespace characters); the flag records being inside a run. -/
def tokenCountAux : Bool → List Char → Nat
  | _, [] => 0
  | inTok, c :: rest =>
    if isJsSpace c then tokenCountAux false rest
    else if inTok then tokenCountAux true rest
    else 1 + tokenCountAux true rest

/-- `.split(/\s+/).filter(w => w.length > 0).length`. -/
def tokenCount (cs : List Char) : Nat :=
  tokenCountAux false cs

/-- `countWords` (wordCounter.ts lines 137-152). -/
def countWords (text : String) : Nat :=
  let cleanText := cleanChars text.toList
  let chineseChars := (cleanText.filter isCJK).length
  let englishWords := tokenCount (cleanText.map (fun c => if isCJK c then ' ' else c))
  chineseChars + englishWords

example : countWords "" = 0 := by decide
example : countWords "```code\nhello\n```plain" = 1 := by decide
example : countWords "你好 world" = 3 := by decide
example : countWords "see [my site](https://x.y) now" = 4 := by decide
example : countWords "- a *b* `code` c" = 3 := by decide

/-! ## Tracker state and operations (wordCounter.ts) -/

/-- The persisted aggregate `WordCountData` (wordCounter.ts lines 12-15). -/
structure WordCountData where
  dailyCounts : Obj
  fileWordCounts : Obj
  deriving DecidableEq, Repr

/-- The identity of a vault file as seen by the tracker. -/
structure TFileInfo where
  path : String
  extension : String
  deriving DecidableEq, Repr

/-- `updateWordCount` (wordCounter.ts lines 154-186) as a state transformer:
the tracker's `initialized` flag, the current data, the changed file, the
content the vault read returns, and the `getTodayString()` value are inputs;
the new in-memory data is the output (the subsequent `saveData` and
`notifyUpdate` do not change the data). -/
def updateWordCount ( initialized : Bool) (data : WordCountData)
    (file : TFileInfo) (content : String) (today : String) : WordCountData :=
  if ! initialized then data
  else if file.extension ≠ "md" then data
  else
    let currentCount : Int := countWords content
    match objGet? data.fileWordCounts file.path with
    | none =>
      { data with fileWordCounts := objSet data.fileWordCounts file.path currentCount }
    | some lastCount =>
      let diff := currentCount - lastCount
      let dailyCounts :=
        if 0 < diff then
          objSet data.dailyCounts today (objGetD data.dailyCounts today 0 + diff)
        else data.dailyCounts
      { dailyCounts := dailyCounts,
        fileWordCounts := objSet data.fileWordCounts file.path currentCount }

/-- A vault listing entry: the file path together with the content
`cachedRead` would produce, `none` when the read fails. -/
abbrev VaultFile := String × Option String

/-- Step 2 of `syncFileCounts` (lines 107-119): walk the vault file list and
seed a baseline for every file missing from `fileWordCounts`; a failed read
is logged and skipped.  Returns the new map and whether anything changed. -/
def addMissingFiles : Obj → List VaultFile → Obj × Bool
  | fwc, [] => (fwc, false)
  | fwc, (path, content?) :: rest =>
    match objGet? fwc path with
    | some _ => addMissingFiles fwc rest
    | none =>
      match content? with
      | some content =>
        let r := addMissingFiles (objSet fwc path ((countWords content : Int))) rest
        (r.1, true)
      | none => addMissingFiles fwc rest

/-- `syncFileCounts` (wordCounter.ts lines 90-127): prune snapshot entries
whose file is gone, seed baselines for unseen files, and report `hasChanges`
(the flag that decides whether `saveData` runs). -/
def syncFileCounts (data : WordCountData) (files : List VaultFile) :
    WordCountData × Bool :=
  let live := files.map Prod.fst
  let pruned := data.fileWordCounts.filter (fun e => live.contains e.1)
  let changed1 := !(data.fileWordCounts.all (fun e => live.contains e.1))
  let r := addMissingFiles pruned files
  ({ dailyCounts := data.dailyCounts, fileWordCounts := r.1 }, changed1 || r.2)

/-- `resetToday` (wordCounter.ts lines 210-215): force today's total to 0. -/
def resetToday (data : WordCountData) (today : String) : WordCountData :=
  { data with dailyCounts := objSet data.dailyCounts today 0 }

/-- The plugin settings consumed by `getLevel` (settings.ts). -/
structure WritingHeatmapSettings where
  level1Threshold : Int
  level2Threshold : Int
  level3Threshold : Int
  maxThreshold : Int
  dailyGoal : Int
  showProgressBar : Bool
  cellSize : Int
  cellGap : Int
  deriving DecidableEq, Repr

/-- The threshold part of `DEFAULT_SETTINGS` (settings.ts). -/
def DEFAULT_SETTINGS : WritingHeatmapSettings :=
  { level1Threshold := 100, level2Threshold := 300, level3Threshold := 600,
    maxThreshold := 1000, dailyGoal := 1000, showProgressBar := true,
    cellSize := 12, cellGap := 2 }

/-- `getLevel` (wordCounter.ts lines 227-234). -/
def getLevel (settings : WritingHeatmapSettings) (count : Int) : Nat :=
  if count = 0 then 0
  else if count < settings.level1Threshold then 1
  else if count < settings.level2Threshold then 2
  else if count < settings.level3Threshold then 3
  else 4

/-! ## Snapshot store (wordCounter.ts lines 236-304 and loadData, lines 38-54) -/

/-- A parsed JSON payload of the persisted shape: each of the two fields may
be absent (`Partial<WordCountData>`). -/
structure Payload where
  dailyCounts : Option Obj
  fileWordCounts : Option Obj
  deriving DecidableEq, Repr

/-- The raw content a successful `adapter.read` returns: the empty string
(falsy, parsed as `\x7b\x7d` without calling `JSON.parse`), malformed JSON
(`JSON.parse` throws), or a well-formed payload. -/
inductive Raw where
  | empty
  | malformed
  | payload (p : Payload)
  deriving DecidableEq, Repr

/-- The state of one adapter path: missing (`exists` is false), existing but
unreadable (`read` throws), or readable raw content. -/
inductive Slot where
  | absent
  | unreadable
  | raw (r : Raw)
  deriving DecidableEq, Repr

/-- The vault adapter state visible to the store: the current data file
path, the legacy data file path, and whether `adapter.write` succeeds. -/
structure Adapter where
  current : Slot
  legacy : Slot
  writeOk : Bool
  deriving DecidableEq, Repr

/-- `adapter.exists(path)`. -/
def slotExists : Slot → Bool
  | .absent => false
  | _ => true

/-- `adapter.read(path)`: throws on a missing or unreadable path. -/
def slotRead : Slot → Except Unit Raw
  | .absent => .error ()
  | .unreadable => .error ()
  | .raw r => .ok r

/-- `raw ? JSON.parse(raw) : \x7b\x7d`: an empty file parses to the empty
payload, malformed content throws. -/
def parseRaw : Raw → Except Unit Payload
  | .empty => .ok { dailyCounts := none, fileWordCounts := none }
  | .malformed => .error ()
  | .payload p => .ok p

/-- `normalizeData` (wordCounter.ts lines 236-242): backfill a missing or
falsy field with the empty mapping; tolerate a null or undefined source. -/
def normalizeData (source : Option Payload) : WordCountData :=
  match source with
  | none => { dailyCounts := [], fileWordCounts := [] }
  | some p =>
    { dailyCounts := p.dailyCounts.getD [],
      fileWordCounts := p.fileWordCounts.getD [] }

/-- `JSON.stringify(data, null, 2)` of a full `WordCountData`: a non-empty,
well-formed serialization carrying both fields. -/
def serializeData (data : WordCountData) : Raw :=
  .payload { dailyCounts := some data.dailyCounts,
             fileWordCounts := some data.fileWordCounts }

/-- `writeExternalData` (wordCounter.ts lines 295-304): overwrite the
current path; a write failure is caught and logged, leaving the adapter
unchanged, and is never rethrown. -/
def writeExternalData (data : WordCountData) (fs : Adapter) : Adapter :=
  if fs.writeOk then { fs with current := .raw (serializeData data) } else fs

/-- The body of the `try` block of `readExternalData` (wordCounter.ts lines
267-288), with exceptions surfaced in `Except`. -/
def readExternalDataBody (fs : Adapter) : Except Unit (Option WordCountData × Adapter) := do
  if slotExists fs.current then
    let raw ← slotRead fs.current
    let parsed ← parseRaw raw
    pure (some (normalizeData (some parsed)), fs)
  else if slotExists fs.legacy then
    let raw ← slotRead fs.legacy
    let parsed ← parseRaw raw
    let normalized := normalizeData (some parsed)
    let fs1 := writeExternalData normalized fs
    let fs2 : Adapter := { fs1 with legacy := .absent }
    pure (some normalized, fs2)
  else
    pure (none, fs)

/-- `readExternalData` (wordCounter.ts lines 266-293): the catch clause
converts any thrown error into the `null` result with no adapter change. -/
def readExternalData (fs : Adapter) : Option WordCountData × Adapter :=
  match readExternalDataBody fs with
  | .ok r => r
  | .error _ => (none, fs)

/-- The outcome of `loadData`: the in-memory data, the `initialized` flag,
and the adapter state. -/
structure LoadResult where
  data : WordCountData
  initialized : Bool
  fs : Adapter
  deriving DecidableEq, Repr

/-- `loadData` (wordCounter.ts lines 38-54): prefer the external file (with
legacy migration); otherwise consult the host plugin's own data store
(`plugin.loadData()`, here `pluginData`) and adopt it when it carries either
field; finally mark the tracker initialized.  The background sync scheduled
afterwards is modelled separately by `syncFileCounts`. -/
def loadData (data0 : WordCountData) (pluginData : Option Payload)
    (fs : Adapter) : LoadResult :=
  let r := readExternalData fs
  match r.1 with
  | some d => { data := d, initialized := true, fs := r.2 }
  | none =>
    match pluginData with
    | some p =>
      if p.dailyCounts.isSome || p.fileWordCounts.isSome then
        { data := normalizeData (some p), initialized := true, fs := r.2 }
      else
        { data := data0, initialized := true, fs := r.2 }
    | none => { data := data0, initialized := true, fs := r.2 }

/-! ## Map lemmas -/

theorem objGet?_objSet_self (m : Obj) (k : String) (v : Int) :
    objGet? (objSet m k v) k = some v := by
  induction m with
  | nil => simp [objSet, objGet?]
  | cons e rest ih =>
    obtain ⟨k', v'⟩ := e
    by_cases h : k' = k
    · simp [objSet, h, objGet?]
    · simp [objSet, h, objGet?, ih]

theorem objGet?_objSet_ne (m : Obj) (k j : String) (v : Int) (h : j ≠ k) :
    objGet? (objSet m k v) j = objGet? m j := by
  have h2 : ¬ k = j := fun hh => h (Eq.symm hh)
  induction m with
  | nil => simp [objSet, objGet?, h2]
  | cons e rest ih =>
    obtain ⟨k', v'⟩ := e
    by_cases hk : k' = k
    · subst hk
      simp [objSet, objGet?, h2]
    · simp only [objSet, if_neg hk, objGet?]
      by_cases hj : k' = j
      · simp [hj]
      · simp [hj, ih]

theorem mem_objSet (m : Obj) (k : String) (v : Int) (e : String × Int)
    (he : e ∈ objSet m k v) : e = (k, v) ∨ e ∈ m := by
  induction m with
  | nil => simpa [objSet] using he
  | cons e' rest ih =>
    obtain ⟨k', v'⟩ := e'
    by_cases h : k' = k
    · simp only [objSet, if_pos h] at he
      rcases List.mem_cons.mp he with h1 | h1
      · exact Or.inl h1
      · exact Or.inr (List.mem_cons_of_mem _ h1)
    · simp only [objSet, if_neg h] at he
      rcases List.mem_cons.mp he with h1 | h1
      · exact Or.inr (h1 ▸ List.mem_cons_self _ _)
      · rcases ih h1 with h2 | h2
        · exact Or.inl h2
        · exact Or.inr (List.mem_cons_of_mem _ h2)

theorem objGet?_mem (m : Obj) (k : String) (v : Int)
    (h : objGet? m k = some v) : (k, v) ∈ m := by
  induction m with
  | nil => simp [objGet?] at h
  | cons e rest ih =>
    obtain ⟨k', v'⟩ := e
    by_cases hk : k' = k
    · subst hk
      have hv : v' = v := by simpa [objGet?] using h
      subst hv
      exact List.mem_cons_self _ _
    · simp only [objGet?, if_neg hk] at h
      exact List.mem_cons_of_mem _ (ih h)

theorem objGet?_filter_key (m : Obj) (f : String → Bool) (k : String) :
    objGet? (m.filter (fun e => f e.1)) k =
      if f k then objGet? m k else none := by
  induction m with
  | nil => simp [objGet?]
  | cons e rest ih =>
    obtain ⟨k', v'⟩ := e
    rw [List.filter_cons]
    by_cases hf : f k'
    · rw [if_pos (by simpa using hf)]
      by_cases hk : k' = k
      · subst hk
        simp [objGet?, hf]
      · simp only [objGet?, if_neg hk]
        exact ih
    · rw [if_neg (by simpa using hf)]
      rw [ih]
      by_cases hk : k' = k
      · subst hk
        simp [objGet?, hf]
      · simp [objGet?, hk]

theorem objGet?_eq_none_iff (m : Obj) (k : String) :
    objGet? m k = none ↔ ∀ e ∈ m, e.1 ≠ k := by
  induction m with
  | nil => simp [objGet?]
  | cons e rest ih =>
    obtain ⟨k', v'⟩ := e
    by_cases hk : k' = k
    · subst hk
      simp [objGet?]
    · simp [objGet?, hk, ih]

/-! ## addMissingFiles lemmas -/

theorem mem_addMissingFiles (files : List VaultFile) (m : Obj) (e : String × Int)
    (he : e ∈ (addMissingFiles m files).1) :
    e ∈ m ∨ e.1 ∈ files.map Prod.fst := by
  induction files generalizing m with
  | nil => exact Or.inl (by simpa [addMissingFiles] using he)
  | cons f rest ih =>
    obtain ⟨path, content?⟩ := f
    simp only [addMissingFiles] at he
    cases hg : objGet? m path with
    | some w =>
      rw [hg] at he
      rcases ih m he with h1 | h1
      · exact Or.inl h1
      · exact Or.inr (by simp [h1])
    | none =>
      rw [hg] at he
      cases content? with
      | none =>
        rcases ih m he with h1 | h1
        · exact Or.inl h1
        · exact Or.inr (by simp [h1])
      | some content =>
        rcases ih _ he with h1 | h1
        · rcases mem_objSet _ _ _ _ h1 with h2 | h2
          · exact Or.inr (by simp [h2])
          · exact Or.inl h2
        · exact Or.inr (by simp [h1])

theorem addMissingFiles_preserves (files : List VaultFile) (m : Obj)
    (p : String) (v : Int) (h : objGet? m p = some v) :
    objGet? (addMissingFiles m files).1 p = some v := by
  induction files generalizing m with
  | nil => simpa [addMissingFiles] using h
  | cons f rest ih =>
    obtain ⟨path, content?⟩ := f
    simp only [addMissingFiles]
    cases hg : objGet? m path with
    | some w => exact ih m h
    | none =>
      cases content? with
      | none => exact ih m h
      | some content =>
        have hne : p ≠ path := by
          intro hp
          subst hp
          rw [h] at hg
          cases hg
        have h2 : objGet? (objSet m path ((countWords content : Int))) p = some v := by
          rw [objGet?_objSet_ne _ _ _ _ hne]
          exact h
        exact ih _ h2

theorem addMissingFiles_covered (files : List VaultFile) (m : Obj)
    (h : ∀ f ∈ files, objGet? m f.1 ≠ none) :
    addMissingFiles m files = (m, false) := by
  induction files with
  | nil => simp [addMissingFiles]
  | cons f rest ih =>
    obtain ⟨path, content?⟩ := f
    simp only [addMissingFiles]
    cases hg : objGet? m path with
    | some w => exact ih (fun f hf => h f (List.mem_cons_of_mem _ hf))
    | none =>
      exact absurd hg (h (path, content?) (List.mem_cons_self _ _))

theorem addMissingFiles_all_present (files : List VaultFile) (m : Obj)
    (hread : ∀ f ∈ files, f.2.isSome) :
    ∀ f ∈ files, objGet? (addMissingFiles m files).1 f.1 ≠ none := by
  induction files generalizing m with
  | nil => simp
  | cons f0 rest ih =>
    obtain ⟨path, content?⟩ := f0
    intro f hf
    simp only [addMissingFiles]
    cases hg : objGet? m path with
    | some w =>
      rcases List.mem_cons.mp hf with h1 | h1
      · subst h1
        rw [addMissingFiles_preserves rest m path w hg]
        simp
      · exact ih m (fun g hg2 => hread g (List.mem_cons_of_mem _ hg2)) f h1
    | none =>
      cases hc : content? with
      | none =>
        have := hread (path, content?) (List.mem_cons_self _ _)
        rw [hc] at this
        simp at this
      | some content =>
        rcases List.mem_cons.mp hf with h1 | h1
        · subst h1
          simp only
          rw [addMissingFiles_preserves rest _ path _ (objGet?_objSet_self m path _)]
          simp
        · exact ih _ (fun g hg2 => hread g (List.mem_cons_of_mem _ hg2)) f h1

theorem addMissingFiles_inserts (files : List VaultFile) (m : Obj)
    (path : String) (content : String)
    (hnd : (files.map Prod.fst).Nodup)
    (hmem : (path, some content) ∈ files)
    (habsent : objGet? m path = none) :
    objGet? (addMissingFiles m files).1 path = some ((countWords content : Int)) := by
  induction files generalizing m with
  | nil => cases hmem
  | cons f0 rest ih =>
    obtain ⟨p0, c0?⟩ := f0
    have hnd2 : (p0 :: rest.map Prod.fst).Nodup := by simpa using hnd
    have hnd' : (rest.map Prod.fst).Nodup := hnd2.of_cons
    rcases List.mem_cons.mp hmem with h1 | h1
    · injection h1.symm with hp hc
      subst hp
      subst hc
      simp only [addMissingFiles, habsent]
      exact addMissingFiles_preserves rest _ p0 _ (objGet?_objSet_self m p0 _)
    · have hne : p0 ≠ path := by
        intro he
        subst he
        have hp0 : p0 ∈ rest.map Prod.fst := List.mem_map_of_mem Prod.fst h1
        exact (List.nodup_cons.mp hnd2).1 hp0
      simp only [addMissingFiles]
      cases hg : objGet? m p0 with
      | some w => exact ih m hnd' h1 habsent
      | none =>
        cases c0? with
        | none => exact ih m hnd' h1 habsent
        | some c0 =>
          have h2 : objGet? (objSet m p0 ((countWords c0 : Int))) path = none := by
            rw [objGet?_objSet_ne _ _ _ _ (fun hh => hne (Eq.symm hh))]
            exact habsent
          exact ih _ hnd' h1 h2

/-! ## Claim theorems -/

/-- C2: countWords is a pure, deterministic function of the text that equals
the reference pipeline (remove fenced code blocks, remove inline code
spans, replace links by their labels, strip the structural punctuation,
trim, then count CJK characters of U+4E00-U+9FA5 plus non-empty
whitespace-separated tokens of the text with CJK characters replaced by a
space); in particular countWords of the empty string is 0, the code-block
scenario yields 1, and the mixed CJK scenario yields 3. -/
theorem C2_countWords_pipeline :
    (∀ t : String, countWords t = countWords t) ∧
    (∀ t : String,
      countWords t =
        ((cleanChars t.toList).filter isCJK).length +
          tokenCount ((cleanChars t.toList).map (fun c => if isCJK c then ' ' else c))) ∧
    countWords "" = 0 ∧
    countWords "```code\nhello\n```plain" = 1 ∧
    countWords "你好 world" = 3 :=
  ⟨fun _ => rfl, fun _ => rfl, by decide, by decide, by decide⟩

theorem updateWordCount_present (data : WordCountData) (file : TFileInfo)
    (content : String) (today : String) (lastCount : Int)
    (hext : file.extension = "md")
    (hlast : objGet? data.fileWordCounts file.path = some lastCount) :
    updateWordCount true data file content today =
      { dailyCounts :=
          if 0 < (countWords content : Int) - lastCount then
            objSet data.dailyCounts today
              (objGetD data.dailyCounts today 0 + ((countWords content : Int) - lastCount))
          else data.dailyCounts,
        fileWordCounts := objSet data.fileWordCounts file.path ((countWords content : Int)) } := by
  simp [updateWordCount, hext, hlast]

/-- C1: for every document with an existing baseline entry, updateWordCount
computes delta = currentCount - lastCount; if delta > 0 it adds exactly
delta to today's daily total (leaving every other day unchanged), if
delta <= 0 it leaves the daily totals unchanged, and in both cases it
overwrites the document's baseline with currentCount. -/
theorem C1_update_existing_baseline (data : WordCountData) (file : TFileInfo)
    (content : String) (today : String) (lastCount : Int)
    (hext : file.extension = "md")
    (hlast : objGet? data.fileWordCounts file.path = some lastCount) :
    (0 < (countWords content : Int) - lastCount →
      objGetD (updateWordCount true data file content today).dailyCounts today 0 =
        objGetD data.dailyCounts today 0 + ((countWords content : Int) - lastCount) ∧
      ∀ k, k ≠ today →
        objGet? (updateWordCount true data file content today).dailyCounts k =
          objGet? data.dailyCounts k) ∧
    ((countWords content : Int) - lastCount ≤ 0 →
      (updateWordCount true data file content today).dailyCounts = data.dailyCounts) ∧
    objGet? (updateWordCount true data file content today).fileWordCounts file.path =
      some ((countWords content : Int)) := by
  rw [updateWordCount_present data file content today lastCount hext hlast]
  refine ⟨?_, ?_, ?_⟩
  · intro hpos
    rw [if_pos hpos]
    constructor
    · simp only [objGetD, objGet?_objSet_self]
      rfl
    · intro k hk
      exact objGet?_objSet_ne _ _ _ _ hk
  · intro hnonpos
    rw [if_neg (by omega)]
  · exact objGet?_objSet_self _ _ _

/-- C1 witness: a concrete document growing from baseline 2 to 3 words adds
exactly 1 to today's total and rewrites the baseline. -/
theorem C1_update_existing_baseline_witness :
    (0 < (countWords "hello big world" : Int) - 2 →
      objGetD (updateWordCount true
          { dailyCounts := [("2025-10-10", 5)], fileWordCounts := [("a.md", 2)] }
          { path := "a.md", extension := "md" } "hello big world" "2025-10-10").dailyCounts
          "2025-10-10" 0 =
        objGetD [("2025-10-10", 5)] "2025-10-10" 0 + ((countWords "hello big world" : Int) - 2) ∧
      ∀ k, k ≠ "2025-10-10" →
        objGet? (updateWordCount true
            { dailyCounts := [("2025-10-10", 5)], fileWordCounts := [("a.md", 2)] }
            { path := "a.md", extension := "md" } "hello big world" "2025-10-10").dailyCounts k =
          objGet? [("2025-10-10", 5)] k) ∧
    ((countWords "hello big world" : Int) - 2 ≤ 0 →
      (updateWordCount true
          { dailyCounts := [("2025-10-10", 5)], fileWordCounts := [("a.md", 2)] }
          { path := "a.md", extension := "md" } "hello big world" "2025-10-10").dailyCounts =
        [("2025-10-10", 5)]) ∧
    objGet? (updateWordCount true
        { dailyCounts := [("2025-10-10", 5)], fileWordCounts := [("a.md", 2)] }
        { path := "a.md", extension := "md" } "hello big world" "2025-10-10").fileWordCounts
        "a.md" = some ((countWords "hello big world" : Int)) :=
  C1_update_existing_baseline
    { dailyCounts := [("2025-10-10", 5)], fileWordCounts := [("a.md", 2)] }
    { path := "a.md", extension := "md" } "hello big world" "2025-10-10" 2
    rfl (by decide)

/-- C3: for a document with no baseline entry, updateWordCount stores the
current count as the baseline and leaves the daily totals unchanged. -/
theorem C3_update_first_seen (data : WordCountData) (file : TFileInfo)
    (content : String) (today : String)
    (hext : file.extension = "md")
    (habsent : objGet? data.fileWordCounts file.path = none) :
    (updateWordCount true data file content today).dailyCounts = data.dailyCounts ∧
    objGet? (updateWordCount true data file content today).fileWordCounts file.path =
      some ((countWords content : Int)) := by
  have hu : updateWordCount true data file content today =
      { data with fileWordCounts := objSet data.fileWordCounts file.path ((countWords content : Int)) } := by
    simp [updateWordCount, hext, habsent]
  rw [hu]
  exact ⟨rfl, objGet?_objSet_self _ _ _⟩

/-- C3 witness: a brand-new one-word document establishes baseline 1 and
leaves the daily totals untouched. -/
theorem C3_update_first_seen_witness :
    (updateWordCount true { dailyCounts := [("2025-10-10", 5)], fileWordCounts := [] }
        { path := "b.md", extension := "md" } "hi" "2025-10-10").dailyCounts =
      [("2025-10-10", 5)] ∧
    objGet? (updateWordCount true { dailyCounts := [("2025-10-10", 5)], fileWordCounts := [] }
        { path := "b.md", extension := "md" } "hi" "2025-10-10").fileWordCounts "b.md" =
      some ((countWords "hi" : Int)) :=
  C3_update_first_seen { dailyCounts := [("2025-10-10", 5)], fileWordCounts := [] }
    { path := "b.md", extension := "md" } "hi" "2025-10-10" rfl (by decide)

/-- Settings with the smallest ascending threshold chain the settings UI
accepts (every positive integer is allowed for each threshold). -/
def thresholdOneSettings : WritingHeatmapSettings :=
  { DEFAULT_SETTINGS with
    level1Threshold := 1, level2Threshold := 2, level3Threshold := 3, maxThreshold := 4 }

/-- C6 counterexample: with the ascending thresholds 1 < 2 < 3 < 4, the
claimed instance getLevel(level1 - 1) = 1 fails, because level1 - 1 = 0 is
mapped to bucket 0 by the count == 0 rule. -/
theorem C6_counterexample :
    thresholdOneSettings.level1Threshold < thresholdOneSettings.level2Threshold ∧
    thresholdOneSettings.level2Threshold < thresholdOneSettings.level3Threshold ∧
    thresholdOneSettings.level3Threshold < thresholdOneSettings.maxThreshold ∧
    ¬ getLevel thresholdOneSettings (thresholdOneSettings.level1Threshold - 1) = 1 := by
  decide

/-- C6 (amended): for ascending thresholds, getLevel maps a count to a
bucket in 0..4 by the strictly-below chain, with count = 0 mapped to 0 and
the first threshold the count is strictly below deciding the bucket, else
bucket 4; the instance getLevel(0) = 0 is unconditional,
getLevel(level1) = 2 holds whenever level1Threshold >= 1 (as every UI-legal
configuration has), and getLevel(level1 - 1) = 1 holds whenever
level1Threshold > 1 (for level1Threshold = 1 it collides with the
count = 0 rule). -/
theorem C6_getLevel_amended (s : WritingHeatmapSettings) (count : Int)
    (h12 : s.level1Threshold < s.level2Threshold)
    (h23 : s.level2Threshold < s.level3Threshold)
    (h3m : s.level3Threshold < s.maxThreshold) :
    getLevel s count ≤ 4 ∧
    (count = 0 → getLevel s count = 0) ∧
    (count ≠ 0 → count < s.level1Threshold → getLevel s count = 1) ∧
    (count ≠ 0 → ¬ count < s.level1Threshold → count < s.level2Threshold →
      getLevel s count = 2) ∧
    (count ≠ 0 → ¬ count < s.level2Threshold → count < s.level3Threshold →
      getLevel s count = 3) ∧
    (count ≠ 0 → ¬ count < s.level3Threshold → getLevel s count = 4) ∧
    getLevel s 0 = 0 ∧
    (1 < s.level1Threshold → getLevel s (s.level1Threshold - 1) = 1) ∧
    (1 ≤ s.level1Threshold → getLevel s s.level1Threshold = 2) := by
  refine ⟨?_, ?_, ?_, ?_, ?_, ?_, ?_, ?_, ?_⟩ <;>
    simp only [getLevel] <;> intros <;> split_ifs <;> omega

/-- C6 amended witness: the default settings have ascending thresholds
100 < 300 < 600 < 1000, so the amended bucket description applies, e.g. at
count 150, and both guarded boundary instances fire since 100 > 1. -/
theorem C6_getLevel_amended_witness :
    getLevel DEFAULT_SETTINGS 150 ≤ 4 ∧
    ((150 : Int) = 0 → getLevel DEFAULT_SETTINGS 150 = 0) ∧
    ((150 : Int) ≠ 0 → (150 : Int) < DEFAULT_SETTINGS.level1Threshold →
      getLevel DEFAULT_SETTINGS 150 = 1) ∧
    ((150 : Int) ≠ 0 → ¬ (150 : Int) < DEFAULT_SETTINGS.level1Threshold →
      (150 : Int) < DEFAULT_SETTINGS.level2Threshold → getLevel DEFAULT_SETTINGS 150 = 2) ∧
    ((150 : Int) ≠ 0 → ¬ (150 : Int) < DEFAULT_SETTINGS.level2Threshold →
      (150 : Int) < DEFAULT_SETTINGS.level3Threshold → getLevel DEFAULT_SETTINGS 150 = 3) ∧
    ((150 : Int) ≠ 0 → ¬ (150 : Int) < DEFAULT_SETTINGS.level3Threshold →
      getLevel DEFAULT_SETTINGS 150 = 4) ∧
    getLevel DEFAULT_SETTINGS 0 = 0 ∧
    (1 < DEFAULT_SETTINGS.level1Threshold →
      getLevel DEFAULT_SETTINGS (DEFAULT_SETTINGS.level1Threshold - 1) = 1) ∧
    (1 ≤ DEFAULT_SETTINGS.level1Threshold →
      getLevel DEFAULT_SETTINGS DEFAULT_SETTINGS.level1Threshold = 2) :=
  C6_getLevel_amended DEFAULT_SETTINGS 150 (by decide) (by decide) (by decide)

theorem syncFileCounts_def (data : WordCountData) (files : List VaultFile) :
    syncFileCounts data files =
      ({ dailyCounts := data.dailyCounts,
         fileWordCounts :=
           (addMissingFiles
             (data.fileWordCounts.filter (fun e => (files.map Prod.fst).contains e.1))
             files).1 },
       (!(data.fileWordCounts.all (fun e => (files.map Prod.fst).contains e.1))) ||
         (addMissingFiles
           (data.fileWordCounts.filter (fun e => (files.map Prod.fst).contains e.1))
           files).2) := rfl

/-- C4: the reconciliation pass leaves the daily totals unchanged, deletes
every snapshot entry whose path is not in the live file set, inserts the
computed word count of the content as the baseline of every readable live
file missing from the snapshot, and keeps the entry of every still-present
file unchanged (no recount). -/
theorem C4_syncFileCounts_reconciliation (data : WordCountData)
    (files : List VaultFile) (hnd : (files.map Prod.fst).Nodup) :
    (syncFileCounts data files).1.dailyCounts = data.dailyCounts ∧
    (∀ p, p ∉ files.map Prod.fst →
      objGet? (syncFileCounts data files).1.fileWordCounts p = none) ∧
    (∀ p content, (p, some content) ∈ files →
      objGet? data.fileWordCounts p = none →
      objGet? (syncFileCounts data files).1.fileWordCounts p =
        some ((countWords content : Int))) ∧
    (∀ p v, objGet? data.fileWordCounts p = some v → p ∈ files.map Prod.fst →
      objGet? (syncFileCounts data files).1.fileWordCounts p = some v) := by
  rw [syncFileCounts_def]
  refine ⟨rfl, ?_, ?_, ?_⟩
  · intro p hp
    rw [objGet?_eq_none_iff]
    intro e he
    rcases mem_addMissingFiles _ _ _ he with h1 | h1
    · have h2 := (List.mem_filter.mp h1).2
      have h3 : e.1 ∈ files.map Prod.fst := List.mem_of_elem_eq_true h2
      exact fun hh => hp (hh ▸ h3)
    · exact fun hh => hp (hh ▸ h1)
  · intro p content hmem habs
    have hpruned :
        objGet? (data.fileWordCounts.filter
          (fun e => (files.map Prod.fst).contains e.1)) p = none := by
      rw [objGet?_filter_key]
      split <;> simp [habs]
    exact addMissingFiles_inserts files _ p content hnd hmem hpruned
  · intro p v hv hlive
    have hpruned :
        objGet? (data.fileWordCounts.filter
          (fun e => (files.map Prod.fst).contains e.1)) p = some v := by
      rw [objGet?_filter_key]
      rw [if_pos (List.elem_eq_true_of_mem hlive)]
      exact hv
    exact addMissingFiles_preserves files _ p v hpruned

/-- Concrete tracker state used by the reconciliation witnesses: one stale
snapshot entry, one entry for a still-present file, and one unseen file. -/
def sampleData : WordCountData :=
  { dailyCounts := [("2025-10-10", 7)],
    fileWordCounts := [("old.md", 4), ("keep.md", 2)] }

/-- Concrete vault listing used by the reconciliation witnesses. -/
def sampleFiles : List VaultFile :=
  [("keep.md", some "x"), ("new.md", some "hello world")]

/-- C4 witness: on the concrete state, reconciliation prunes `old.md`,
baselines `new.md` at its computed count, keeps `keep.md` at 2, and leaves
the daily totals alone. -/
theorem C4_syncFileCounts_reconciliation_witness :
    (sampleFiles.map Prod.fst).Nodup ∧
    ((syncFileCounts sampleData sampleFiles).1.dailyCounts = sampleData.dailyCounts ∧
     (∀ p, p ∉ sampleFiles.map Prod.fst →
       objGet? (syncFileCounts sampleData sampleFiles).1.fileWordCounts p = none) ∧
     (∀ p content, (p, some content) ∈ sampleFiles →
       objGet? sampleData.fileWordCounts p = none →
       objGet? (syncFileCounts sampleData sampleFiles).1.fileWordCounts p =
         some ((countWords content : Int))) ∧
     (∀ p v, objGet? sampleData.fileWordCounts p = some v →
       p ∈ sampleFiles.map Prod.fst →
       objGet? (syncFileCounts sampleData sampleFiles).1.fileWordCounts p = some v)) :=
  ⟨by decide, C4_syncFileCounts_reconciliation sampleData sampleFiles (by decide)⟩

/-- C5: reconciliation is idempotent: when every content read succeeds, a
second syncFileCounts run on the state the first run produced changes
nothing and reports hasChanges = false, so no save is triggered. -/
theorem C5_sync_idempotent (data : WordCountData) (files : List VaultFile)
    (hread : ∀ f ∈ files, f.2.isSome) :
    syncFileCounts (syncFileCounts data files).1 files =
      ((syncFileCounts data files).1, false) := by
  have hall : ∀ e ∈ (syncFileCounts data files).1.fileWordCounts,
      (fun e : String × Int => (files.map Prod.fst).contains e.1) e = true := by
    rw [syncFileCounts_def]
    intro e he
    rcases mem_addMissingFiles _ _ _ he with h1 | h1
    · exact (List.mem_filter.mp h1).2
    · exact List.elem_eq_true_of_mem h1
  have hcov : ∀ f ∈ files,
      objGet? (syncFileCounts data files).1.fileWordCounts f.1 ≠ none := by
    rw [syncFileCounts_def]
    exact addMissingFiles_all_present files _ hread
  rw [syncFileCounts_def ((syncFileCounts data files).1) files]
  rw [List.filter_eq_self.mpr hall]
  rw [List.all_eq_true.mpr hall]
  rw [addMissingFiles_covered files _ hcov]
  simp

/-- C5 witness: on the concrete state, the second reconciliation run is a
no-op that reports no changes. -/
theorem C5_sync_idempotent_witness :
    (∀ f ∈ sampleFiles, f.2.isSome) ∧
    syncFileCounts (syncFileCounts sampleData sampleFiles).1 sampleFiles =
      ((syncFileCounts sampleData sampleFiles).1, false) :=
  ⟨by decide, C5_sync_idempotent sampleData sampleFiles (by decide)⟩

/-- C7: legacy-file migration is one-time and normalizing: when only the
legacy path holds a payload (and writes succeed), one load returns the
normalized content, rewrites it to the current path, deletes the legacy
path, and a second load reads identical content from the current path with
no further adapter change; normalization backfills an empty mapping for any
missing field. -/
theorem C7_legacy_migration (p : Payload) (fs : Adapter)
    (hcur : fs.current = .absent)
    (hleg : fs.legacy = .raw (.payload p))
    (hw : fs.writeOk = true) :
    (readExternalData fs).1 = some (normalizeData (some p)) ∧
    (readExternalData fs).2.legacy = .absent ∧
    (readExternalData fs).2.current = .raw (serializeData (normalizeData (some p))) ∧
    readExternalData (readExternalData fs).2 =
      (some (normalizeData (some p)), (readExternalData fs).2) ∧
    (p.dailyCounts = none → (normalizeData (some p)).dailyCounts = []) ∧
    (p.fileWordCounts = none → (normalizeData (some p)).fileWordCounts = []) := by
  obtain ⟨c, l, w⟩ := fs
  simp only at hcur hleg hw
  subst hcur
  subst hleg
  subst hw
  refine ⟨rfl, rfl, rfl, rfl, ?_, ?_⟩
  · intro h
    simp [normalizeData, h]
  · intro h
    simp [normalizeData, h]

/-- C7 witness: a concrete legacy payload missing the fileWordCounts field
migrates in one load and reads back identically afterwards. -/
theorem C7_legacy_migration_witness :
    (readExternalData
        { current := .absent,
          legacy := .raw (.payload { dailyCounts := some [("2025-10-09", 3)], fileWordCounts := none }),
          writeOk := true }).1 =
      some (normalizeData (some { dailyCounts := some [("2025-10-09", 3)], fileWordCounts := none })) ∧
    (readExternalData
        { current := .absent,
          legacy := .raw (.payload { dailyCounts := some [("2025-10-09", 3)], fileWordCounts := none }),
          writeOk := true }).2.legacy = .absent ∧
    (readExternalData
        { current := .absent,
          legacy := .raw (.payload { dailyCounts := some [("2025-10-09", 3)], fileWordCounts := none }),
          writeOk := true }).2.current =
      .raw (serializeData (normalizeData (some { dailyCounts := some [("2025-10-09", 3)], fileWordCounts := none }))) ∧
    readExternalData
        (readExternalData
          { current := .absent,
            legacy := .raw (.payload { dailyCounts := some [("2025-10-09", 3)], fileWordCounts := none }),
            writeOk := true }).2 =
      (some (normalizeData (some { dailyCounts := some [("2025-10-09", 3)], fileWordCounts := none })),
       (readExternalData
          { current := .absent,
            legacy := .raw (.payload { dailyCounts := some [("2025-10-09", 3)], fileWordCounts := none }),
            writeOk := true }).2) ∧
    (({ dailyCounts := some [("2025-10-09", 3)], fileWordCounts := none } : Payload).dailyCounts = none →
      (normalizeData (some { dailyCounts := some [("2025-10-09", 3)], fileWordCounts := none })).dailyCounts = []) ∧
    (({ dailyCounts := some [("2025-10-09", 3)], fileWordCounts := none } : Payload).fileWordCounts = none →
      (normalizeData (some { dailyCounts := some [("2025-10-09", 3)], fileWordCounts := none })).fileWordCounts = []) :=
  C7_legacy_migration { dailyCounts := some [("2025-10-09", 3)], fileWordCounts := none }
    { current := .absent,
      legacy := .raw (.payload { dailyCounts := some [("2025-10-09", 3)], fileWordCounts := none }),
      writeOk := true }
    rfl rfl rfl

/-- C8: the store never propagates an exception: an unreadable or malformed
current or legacy file makes readExternalData return null with the adapter
unchanged, and a failing write leaves the adapter (and hence the in-memory
state, which writeExternalData never touches) unchanged; neither operation
throws to its caller. -/
theorem C8_store_error_handling (fs : Adapter) (data : WordCountData) :
    (fs.current = .unreadable → readExternalData fs = (none, fs)) ∧
    (fs.current = .raw .malformed → readExternalData fs = (none, fs)) ∧
    (fs.current = .absent → fs.legacy = .unreadable → readExternalData fs = (none, fs)) ∧
    (fs.current = .absent → fs.legacy = .raw .malformed → readExternalData fs = (none, fs)) ∧
    (fs.writeOk = false → writeExternalData data fs = fs) := by
  obtain ⟨c, l, w⟩ := fs
  refine ⟨?_, ?_, ?_, ?_, ?_⟩
  · intro h
    simp only at h
    subst h
    rfl
  · intro h
    simp only at h
    subst h
    rfl
  · intro h1 h2
    simp only at h1 h2
    subst h1
    subst h2
    rfl
  · intro h1 h2
    simp only at h1 h2
    subst h1
    subst h2
    rfl
  · intro h
    simp only at h
    subst h
    rfl

/-- C8 witness: each failure shape, concretely: unreadable current file,
malformed current file, unreadable legacy file, malformed legacy file, and
a failing write. -/
theorem C8_store_error_handling_witness :
    readExternalData { current := .unreadable, legacy := .absent, writeOk := true } =
      (none, { current := .unreadable, legacy := .absent, writeOk := true }) ∧
    readExternalData { current := .raw .malformed, legacy := .absent, writeOk := true } =
      (none, { current := .raw .malformed, legacy := .absent, writeOk := true }) ∧
    readExternalData { current := .absent, legacy := .unreadable, writeOk := true } =
      (none, { current := .absent, legacy := .unreadable, writeOk := true }) ∧
    readExternalData { current := .absent, legacy := .raw .malformed, writeOk := true } =
      (none, { current := .absent, legacy := .raw .malformed, writeOk := true }) ∧
    writeExternalData sampleData { current := .absent, legacy := .absent, writeOk := false } =
      { current := .absent, legacy := .absent, writeOk := false } :=
  ⟨(C8_store_error_handling { current := .unreadable, legacy := .absent, writeOk := true } sampleData).1 rfl,
   (C8_store_error_handling { current := .raw .malformed, legacy := .absent, writeOk := true } sampleData).2.1 rfl,
   (C8_store_error_handling { current := .absent, legacy := .unreadable, writeOk := true } sampleData).2.2.1 rfl rfl,
   (C8_store_error_handling { current := .absent, legacy := .raw .malformed, writeOk := true } sampleData).2.2.2.1 rfl rfl,
   (C8_store_error_handling { current := .absent, legacy := .absent, writeOk := false } sampleData).2.2.2.2 rfl⟩

/-- C10: when neither the current nor the legacy external file exists,
loadData falls back to the host plugin's own data store, adopting its
normalized content exactly when the payload carries a dailyCounts or
fileWordCounts field; this source is never migrated: the adapter is left
exactly as it was (nothing written to the current path, nothing deleted)
and the fallback payload itself is only read. -/
theorem C10_loadData_plugin_fallback (data0 : WordCountData)
    (pluginData : Option Payload) (fs : Adapter)
    (hcur : fs.current = .absent) (hleg : fs.legacy = .absent) :
    (loadData data0 pluginData fs).fs = fs ∧
    (loadData data0 pluginData fs).initialized = true ∧
    (∀ p, pluginData = some p →
      (p.dailyCounts.isSome || p.fileWordCounts.isSome) = true →
      (loadData data0 pluginData fs).data = normalizeData (some p)) ∧
    (∀ p, pluginData = some p →
      (p.dailyCounts.isSome || p.fileWordCounts.isSome) = false →
      (loadData data0 pluginData fs).data = data0) ∧
    (pluginData = none → (loadData data0 pluginData fs).data = data0) := by
  obtain ⟨c, l, w⟩ := fs
  simp only at hcur hleg
  subst hcur
  subst hleg
  have hread : readExternalData { current := .absent, legacy := .absent, writeOk := w } =
      (none, { current := .absent, legacy := .absent, writeOk := w }) := rfl
  refine ⟨?_, ?_, ?_, ?_, ?_⟩
  · cases pluginData with
    | none => rfl
    | some p =>
      simp only [loadData, hread]
      split <;> rfl
  · cases pluginData with
    | none => rfl
    | some p =>
      simp only [loadData, hread]
      split <;> rfl
  · intro p hp hfield
    subst hp
    simp only [loadData, hread, hfield]
    rfl
  · intro p hp hfield
    subst hp
    simp only [loadData, hread, hfield]
    rfl
  · intro hp
    subst hp
    rfl

/-- C10 witness: with no external files, a plugin payload carrying only
fileWordCounts is adopted (normalized) and the adapter is untouched. -/
theorem C10_loadData_plugin_fallback_witness :
    (loadData sampleData (some { dailyCounts := none, fileWordCounts := some [("x.md", 1)] })
        { current := .absent, legacy := .absent, writeOk := true }).fs =
      { current := .absent, legacy := .absent, writeOk := true } ∧
    (loadData sampleData (some { dailyCounts := none, fileWordCounts := some [("x.md", 1)] })
        { current := .absent, legacy := .absent, writeOk := true }).initialized = true ∧
    (∀ p, (some { dailyCounts := none, fileWordCounts := some [("x.md", 1)] } : Option Payload) = some p →
      (p.dailyCounts.isSome || p.fileWordCounts.isSome) = true →
      (loadData sampleData (some { dailyCounts := none, fileWordCounts := some [("x.md", 1)] })
          { current := .absent, legacy := .absent, writeOk := true }).data = normalizeData (some p)) ∧
    (∀ p, (some { dailyCounts := none, fileWordCounts := some [("x.md", 1)] } : Option Payload) = some p →
      (p.dailyCounts.isSome || p.fileWordCounts.isSome) = false →
      (loadData sampleData (some { dailyCounts := none, fileWordCounts := some [("x.md", 1)] })
          { current := .absent, legacy := .absent, writeOk := true }).data = sampleData) ∧
    ((some { dailyCounts := none, fileWordCounts := some [("x.md", 1)] } : Option Payload) = none →
      (loadData sampleData (some { dailyCounts := none, fileWordCounts := some [("x.md", 1)] })
          { current := .absent, legacy := .absent, writeOk := true }).data = sampleData) :=
  C10_loadData_plugin_fallback sampleData
    (some { dailyCounts := none, fileWordCounts := some [("x.md", 1)] })
    { current := .absent, legacy := .absent, writeOk := true } rfl rfl

theorem objGetD_nonneg (m : Obj) (k : String)
    (h : ∀ e ∈ m, (0 : Int) ≤ e.2) : 0 ≤ objGetD m k 0 := by
  unfold objGetD
  cases hg : objGet? m k with
  | none => simp
  | some v => simpa using h (k, v) (objGet?_mem m k v hg)

theorem updateWordCount_dailyCounts_cases ( initialized : Bool)
    (data : WordCountData) (file : TFileInfo) (content : String) (today : String) :
    (updateWordCount initialized data file content today).dailyCounts = data.dailyCounts ∨
    ∃ diff : Int, 0 < diff ∧
      (updateWordCount initialized data file content today).dailyCounts =
        objSet data.dailyCounts today (objGetD data.dailyCounts today 0 + diff) := by
  cases initialized with
  | false => exact Or.inl rfl
  | true =>
    by_cases hext : file.extension = "md"
    · cases hlast : objGet? data.fileWordCounts file.path with
      | none =>
        left
        simp [updateWordCount, hext, hlast]
      | some lastCount =>
        by_cases hpos : 0 < (countWords content : Int) - lastCount
        · right
          refine ⟨(countWords content : Int) - lastCount, hpos, ?_⟩
          rw [updateWordCount_present data file content today lastCount hext hlast]
          rw [if_pos hpos]
        · left
          rw [updateWordCount_present data file content today lastCount hext hlast]
          rw [if_neg hpos]
    · left
      simp [updateWordCount, hext]

/-- C9: starting from daily totals whose values are all non-negative, each
of updateWordCount, syncFileCounts and resetToday yields daily totals whose
values are all non-negative, and updateWordCount changes a day's value only
by adding a strictly positive delta to today's entry. -/
theorem C9_daily_nonneg_invariant (data : WordCountData)
    (hnn : ∀ e ∈ data.dailyCounts, (0 : Int) ≤ e.2)
    ( initialized : Bool) (file : TFileInfo) (content : String) (today : String)
    (files : List VaultFile) :
    (∀ e ∈ (updateWordCount initialized data file content today).dailyCounts,
      (0 : Int) ≤ e.2) ∧
    (∀ e ∈ (syncFileCounts data files).1.dailyCounts, (0 : Int) ≤ e.2) ∧
    (∀ e ∈ (resetToday data today).dailyCounts, (0 : Int) ≤ e.2) ∧
    (∀ k, objGet? (updateWordCount initialized data file content today).dailyCounts k ≠
        objGet? data.dailyCounts k →
      k = today ∧
      ∃ diff : Int, 0 < diff ∧
        objGet? (updateWordCount initialized data file content today).dailyCounts k =
          some (objGetD data.dailyCounts k 0 + diff)) := by
  have hd0 : 0 ≤ objGetD data.dailyCounts today 0 := objGetD_nonneg _ _ hnn
  refine ⟨?_, ?_, ?_, ?_⟩
  · rcases updateWordCount_dailyCounts_cases initialized data file content today with
      hcase | ⟨diff, hpos, hcase⟩
    · rw [hcase]
      exact hnn
    · rw [hcase]
      intro e he
      rcases mem_objSet _ _ _ _ he with h1 | h1
      · rw [h1]
        simp only
        omega
      · exact hnn e h1
  · rw [syncFileCounts_def]
    exact hnn
  · intro e he
    rcases mem_objSet _ _ _ _ he with h1 | h1
    · rw [h1]
    · exact hnn e h1
  · intro k hk
    rcases updateWordCount_dailyCounts_cases initialized data file content today with
      hcase | ⟨diff, hpos, hcase⟩
    · rw [hcase] at hk
      exact absurd rfl hk
    · rw [hcase] at hk
      by_cases hkt : k = today
      · subst hkt
        refine ⟨rfl, diff, hpos, ?_⟩
        rw [hcase]
        exact objGet?_objSet_self _ _ _
      · rw [objGet?_objSet_ne _ _ _ _ hkt] at hk
        exact absurd rfl hk

/-- C9 witness: the concrete sample state has non-negative daily totals,
and the three operations preserve that at concrete inputs. -/
theorem C9_daily_nonneg_invariant_witness :
    (∀ e ∈ sampleData.dailyCounts, (0 : Int) ≤ e.2) ∧
    ((∀ e ∈ (updateWordCount true sampleData { path := "keep.md", extension := "md" }
        "one two three" "2025-10-10").dailyCounts, (0 : Int) ≤ e.2) ∧
     (∀ e ∈ (syncFileCounts sampleData sampleFiles).1.dailyCounts, (0 : Int) ≤ e.2) ∧
     (∀ e ∈ (resetToday sampleData "2025-10-10").dailyCounts, (0 : Int) ≤ e.2) ∧
     (∀ k, objGet? (updateWordCount true sampleData { path := "keep.md", extension := "md" }
          "one two three" "2025-10-10").dailyCounts k ≠ objGet? sampleData.dailyCounts k →
       k = "2025-10-10" ∧
       ∃ diff : Int, 0 < diff ∧
         objGet? (updateWordCount true sampleData { path := "keep.md", extension := "md" }
             "one two three" "2025-10-10").dailyCounts k =
           some (objGetD sampleData.dailyCounts k 0 + diff))) :=
  ⟨by decide,
   C9_daily_nonneg_invariant sampleData (by decide) true
     { path := "keep.md", extension := "md" } "one two three" "2025-10-10" sampleFiles⟩

end DailyHeatmap
